import Mathlib

/-!
Verification of the OrbitWatch backend (`backend/app.py`): the TLE
feature extractor `parse_tle_to_features`, the risk synthesizer
`generate_risk_assessment`, the per-model score normalization performed in
`analyze_satellite`, and the lazily initialized model registry guarded by
`models_lock` in `load_models_if_needed`.

Modelling conventions.  Python floats are modelled by `PyFloat`: an exact
rational together with the IEEE special values `inf`, `-inf` and `nan`.
The rational value is exact — rounding of decimal literals to binary
doubles, overflow of huge finite literals to infinity, and underscore
digit grouping in numeric literals are not modelled; no theorem below
depends on them.  Scores flowing through the risk synthesizer are plain
rationals, since every model output feeding it is an ordinary finite
float.  Exceptions become `Option`/explicit error results.  Randomness
(`random.choice`) is determinized by passing the drawn element (an index
into the drawn-from list) as an explicit argument.
-/

namespace OrbitWatch

/-- A CPython float: a finite value kept as an exact rational, or one of
the IEEE special values. -/
inductive PyFloat where
  | finite (q : ℚ)
  | inf
  | ninf
  | nan
deriving DecidableEq

/-- Whether a `PyFloat` is a finite value. -/
def PyFloat.isFinite : PyFloat → Bool
  | .finite _ => true
  | _ => false

/-- The whitespace characters CPython's `float(str)` strips from both ends. -/
def isPySpace (c : Char) : Bool :=
  c = ' ' ∨ c = '\t' ∨ c = '\n' ∨ c = '\r' ∨ c = '\x0b' ∨ c = '\x0c'

/-- Numeric value of a decimal digit character. -/
def digitVal (c : Char) : ℕ := c.toNat - 48

/-- Reads a maximal run of decimal digits, extending the accumulated value
`acc` (of `cnt` digits read so far); returns the value, the digit count and
the rest of the input. -/
def readDigits : List Char → ℕ → ℕ → ℕ × ℕ × List Char
  | [], acc, cnt => (acc, cnt, [])
  | c :: cs, acc, cnt =>
    if c.isDigit then readDigits cs (10 * acc + digitVal c) (cnt + 1)
    else (acc, cnt, c :: cs)

/-- The mantissa of CPython's float grammar: `digits`, `digits.`,
`digits.digits` or `.digits` — at least one digit in total.  Returns the
exact value and the unconsumed input. -/
def parseMantissa (cs : List Char) : Option (ℚ × List Char) :=
  let (ip, c1, rest1) := readDigits cs 0 0
  match rest1 with
  | '.' :: rest2 =>
    let (fp, c2, rest3) := readDigits rest2 0 0
    if c1 + c2 = 0 then none
    else some (((ip : ℚ) + (fp : ℚ) / 10 ^ c2, rest3))
  | _ => if c1 = 0 then none else some ((ip : ℚ), rest1)

/-- The optional exponent of CPython's float grammar: nothing, or
`e`/`E`, an optional sign and at least one digit, consuming the whole
rest of the input. -/
def parseExponent : List Char → Option ℤ
  | [] => some 0
  | c :: cs =>
    if c = 'e' ∨ c = 'E' then
      let (sgn, cs2) : ℤ × List Char :=
        match cs with
        | '+' :: t => (1, t)
        | '-' :: t => (-1, t)
        | t => (1, t)
      let (d, cnt, rest) := readDigits cs2 0 0
      if cnt = 0 ∨ rest ≠ [] then none else some (sgn * (d : ℤ))
    else none

/-- CPython's `float(str)` conversion: strip whitespace, an optional
sign, then either a case-insensitive `inf`/`infinity`/`nan` literal or a
decimal mantissa with optional exponent.  `none` models the `ValueError`
CPython raises on any other input. -/
def pyFloat? (s : String) : Option PyFloat :=
  let stripped := ((s.toList.dropWhile isPySpace).reverse.dropWhile isPySpace).reverse
  let (neg, body) : Bool × List Char :=
    match stripped with
    | '+' :: t => (false, t)
    | '-' :: t => (true, t)
    | t => (false, t)
  let low := body.map Char.toLower
  if low = ['i', 'n', 'f'] ∨ low = ['i', 'n', 'f', 'i', 'n', 'i', 't', 'y'] then
    some (if neg then .ninf else .inf)
  else if low = ['n', 'a', 'n'] then
    some .nan
  else
    match parseMantissa body with
    | none => none
    | some (m, rest) =>
      match parseExponent rest with
      | none => none
      | some e => some (.finite ((if neg then -m else m) * (10 : ℚ) ^ e))

/-- Python string slicing `s[a:b]` for `a ≤ b`: out-of-range bounds clamp
to the string's length, never raising. -/
def pySlice (s : String) (a b : ℕ) : String :=
  ((s.toList.drop a).take (b - a)).asString

/-- `10.0 ** x` on a Python float.  `10.0 ** inf = inf`, `10.0 ** -inf =
0.0`, `nan` propagates.  A non-integer finite exponent yields an
irrational power, which the rational model represents by `0`: in the one
call site below the exponent comes from a slice of at most 2 characters,
so it is finite with magnitude at most 99 (in particular CPython's
`OverflowError` for huge finite results cannot occur there), and no
theorem below depends on the value of a non-integer power, only on its
finiteness, which `0` shares with CPython's result. -/
def pow10 : PyFloat → PyFloat
  | .finite q => .finite (if q.den = 1 then (10 : ℚ) ^ q.num else 0)
  | .inf => .inf
  | .ninf => .finite 0
  | .nan => .nan

/-- Negation of a Python float. -/
def pyNegF : PyFloat → PyFloat
  | .finite q => .finite (-q)
  | .inf => .ninf
  | .ninf => .inf
  | .nan => .nan

/-- IEEE multiplication of two Python floats (overflow of a finite
product is not modelled). -/
def pyMul : PyFloat → PyFloat → PyFloat
  | .nan, _ => .nan
  | _, .nan => .nan
  | .finite a, .finite b => .finite (a * b)
  | .finite a, .inf => if 0 < a then .inf else if a < 0 then .ninf else .nan
  | .finite a, .ninf => if 0 < a then .ninf else if a < 0 then .inf else .nan
  | .inf, .finite b => if 0 < b then .inf else if b < 0 then .ninf else .nan
  | .ninf, .finite b => if 0 < b then .ninf else if b < 0 then .inf else .nan
  | .inf, .inf => .inf
  | .inf, .ninf => .ninf
  | .ninf, .inf => .ninf
  | .ninf, .ninf => .inf

/-- Python `int(x)` on a finite float value: truncation toward zero. -/
def pyInt (q : ℚ) : ℤ := if 0 ≤ q then ⌊q⌋ else ⌈q⌉

/-- The feature dictionary built by `parse_tle_to_features`, with the 8
keys of `FEATURES`. -/
structure Features where
  first_derivative_mean_motion : PyFloat
  bstar_drag : PyFloat
  inclination : PyFloat
  raan : PyFloat
  eccentricity : PyFloat
  arg_of_perigee : PyFloat
  mean_anomaly : PyFloat
  mean_motion : PyFloat
deriving DecidableEq

/-- `parse_tle_to_features(tle_line1, tle_line2)`: fixed-column decoding
of the two TLE lines, evaluated in the source's dictionary order;
`bstar_drag = float(l1[53:59]) * 10 ** (-float(l1[59:61]))` and
`eccentricity = float("." + l2[26:33])`.  Any `ValueError` from a
`float` conversion is caught and `None` (here `none`) returned. -/
def parse_tle_to_features (tle_line1 tle_line2 : String) : Option Features := do
  let fdmm ← pyFloat? (pySlice tle_line1 33 43)
  let bmant ← pyFloat? (pySlice tle_line1 53 59)
  let bexp ← pyFloat? (pySlice tle_line1 59 61)
  let bstar := pyMul bmant (pow10 (pyNegF bexp))
  let inc ← pyFloat? (pySlice tle_line2 8 16)
  let raan ← pyFloat? (pySlice tle_line2 17 25)
  let ecc ← pyFloat? ("." ++ pySlice tle_line2 26 33)
  let argp ← pyFloat? (pySlice tle_line2 34 42)
  let ma ← pyFloat? (pySlice tle_line2 43 51)
  let mm ← pyFloat? (pySlice tle_line2 52 63)
  pure {
    first_derivative_mean_motion := fdmm
    bstar_drag := bstar
    inclination := inc
    raan := raan
    eccentricity := ecc
    arg_of_perigee := argp
    mean_anomaly := ma
    mean_motion := mm
  }

/-- One entry of `ANOMALY_DETAILS_MAP`. -/
structure AnomalyDetails where
  description : String
  assessment : String
  mitre : String
  sparta : String
deriving DecidableEq

/-- `ANOMALY_DETAILS_MAP`, as an association list in the source's
insertion order (which is the order `list(dict.keys())` observes). -/
def ANOMALY_DETAILS_MAP : List (String × AnomalyDetails) := [
  ("inclination", {
    description := "Anomalous inclination change detected, inconsistent with station-keeping maneuvers.",
    assessment := "This could indicate a repositioning attempt for surveillance or to approach another asset's orbital slot.",
    mitre := "T0821: Non-Standard Orbit",
    sparta := "C0015: Orbit Degradation/Modification" }),
  ("eccentricity", {
    description := "Significant, unplanned increase in orbital eccentricity.",
    assessment := "The change suggests a potential engine malfunction or an intentional, aggressive maneuver to alter the orbit's shape, possibly for a rapid fly-by.",
    mitre := "T0815: On-orbit Repositioning",
    sparta := "C0012: Unscheduled Maneuver" }),
  ("bstar_drag", {
    description := "Erratic fluctuations in the BSTAR drag term observed.",
    assessment := "This may be caused by an unexpected change in the satellite's physical profile (e.g., appendage deployment) or orientation, potentially related to a system malfunction or covert activity.",
    mitre := "T0809: Component Malfunction",
    sparta := "C0021: Physical Signature Modification" }),
  ("mean_motion", {
    description := "Unusual drift in mean motion detected.",
    assessment := "The satellite's orbital period is changing, suggesting a subtle, continuous thrust or an uncorrected orbital decay, possibly to phase with another object.",
    mitre := "T0820: Non-Standard Attitude",
    sparta := "C0014: Station Keeping Anomaly" })]

/-- The final output record of `generate_risk_assessment`. -/
structure RiskAssessment where
  description : String
  assessment : String
  riskLevel : String
  riskScore : ℤ
  mitreTechnique : String
  spartaClassification : String
deriving DecidableEq

/-- The `is_anomaly` computation opening `generate_risk_assessment`:
`prediction[0] > 0.5` for the classifier models, `prediction[0] == -1`
for Isolation Forest, `False` otherwise.  `prediction` is the scalar
`prediction[0]` of the source's one-element array. -/
def is_anomaly_of (model_name : String) (prediction : ℚ) : Bool :=
  if model_name = "XGBoost" ∨ model_name = "CNN" then decide (prediction > 0.5)
  else if model_name = "Isolation Forest" then decide (prediction = -1)
  else false

/-- The `risk_level` threshold chain the anomalous branch computes from
`risk_score`. -/
def risk_level_of (risk_score : ℤ) : String :=
  if risk_score > 85 then "Critical"
  else if risk_score > 70 then "High"
  else if risk_score > 40 then "Moderate"
  else "Low"

/-- `generate_risk_assessment(prediction, score, model_name)`.  The
`random.choice` over `list(ANOMALY_DETAILS_MAP.keys())` is determinized
as the index `i` of the drawn key (the draw is used only in the
anomalous branch); the source's local variables `details`, `risk_score`
and `risk_level` are inlined. -/
def generate_risk_assessment (prediction score : ℚ) (model_name : String)
    (i : Fin ANOMALY_DETAILS_MAP.length) : RiskAssessment :=
  if is_anomaly_of model_name prediction = false then
    { description := "No anomalous behavior detected. All orbital parameters are within expected operational limits.",
      assessment := "The satellite appears to be functioning normally. No immediate threats identified.",
      riskLevel := "Informational",
      riskScore := pyInt (score * 100),
      mitreTechnique := "N/A",
      spartaClassification := "N/A" }
  else
    { description := (ANOMALY_DETAILS_MAP.get i).2.description,
      assessment := "(" ++ model_name ++ " Model): " ++ (ANOMALY_DETAILS_MAP.get i).2.assessment,
      riskLevel := risk_level_of (pyInt (score * 100)),
      riskScore := pyInt (score * 100),
      mitreTechnique := (ANOMALY_DETAILS_MAP.get i).2.mitre,
      spartaClassification := (ANOMALY_DETAILS_MAP.get i).2.sparta }

/-- Score normalization of the XGBoost branch of `analyze_satellite`:
`score = pred_proba[0][1]`, the class-1 probability used directly. -/
def xgbScore (p : ℚ) : ℚ := p

/-- Score normalization of the CNN branch of `analyze_satellite`:
`score = pred_proba[0][0]`, the sigmoid output used directly. -/
def cnnScore (p : ℚ) : ℚ := p

/-- Score normalization of the Isolation Forest branch of
`analyze_satellite`: `score = 1 - max(0, min(1, (raw_score + 0.15) / 0.2))`. -/
def isoScore (raw_score : ℚ) : ℚ :=
  1 - max 0 (min 1 ((raw_score + 0.15) / 0.2))

/-- Clamping of `x` into `[lo, hi]`, as the specification's `clamp`. -/
def clamp (x lo hi : ℚ) : ℚ := max lo (min hi x)

/-- The specification's formula for the Outlier-Isolation score:
`score = 1 − clamp((d + 0.15) / 0.2, 0, 1)`. -/
def specIsoScore (d : ℚ) : ℚ := 1 - clamp ((d + 0.15) / 0.2) 0 1

/-- The `models` dictionary.  The `xgb` slot distinguishes the freshly
constructed `XGBClassifier()` (`some false`, assigned before
`load_model` runs) from a fully loaded model (`some true`); the other
slots hold opaque loaded artifacts. -/
structure Registry where
  xgb : Option Bool
  cnn : Option Unit
  iso_forest : Option Unit
  scaler : Option Unit
deriving DecidableEq, Fintype

/-- The `models` dictionary at process start: every slot `None`. -/
def emptyRegistry : Registry := ⟨none, none, none, none⟩

/-- The loading environment: whether each artifact operation succeeds
when attempted.  The artifacts on disk do not change between attempts,
so each flag is fixed across calls. -/
structure LoadEnv where
  xgbCtorOk : Bool
  xgbLoadOk : Bool
  cnnOk : Bool
  isoOk : Bool
  scalerOk : Bool
deriving DecidableEq, Fintype

/-- Whether every load step of the environment succeeds. -/
def LoadEnv.allOk (env : LoadEnv) : Bool :=
  env.xgbCtorOk && env.xgbLoadOk && env.cnnOk && env.isoOk && env.scalerOk

/-- One critical section of `load_models_if_needed()`: the body guarded
by `models_lock`.  If `models["xgb"] is None` it runs the load sequence,
mutating `models` slot by slot; an exception leaves the slots assigned so
far and propagates.  Returns the new registry, whether the load branch
was entered, and whether an exception was raised. -/
def load_models_if_needed (env : LoadEnv) (st : Registry) : Registry × Bool × Bool :=
  if st.xgb = none then
    if env.xgbCtorOk = false then (st, true, true)
    else
      let st1 := { st with xgb := some false }
      if env.xgbLoadOk = false then (st1, true, true)
      else
        let st2 := { st1 with xgb := some true }
        if env.cnnOk = false then (st2, true, true)
        else
          let st3 := { st2 with cnn := some () }
          if env.isoOk = false then (st3, true, true)
          else
            let st4 := { st3 with iso_forest := some () }
            if env.scalerOk = false then (st4, true, true)
            else ({ st4 with scaler := some () }, true, false)
  else (st, false, false)

/-- The draw of `random.choice(["XGBoost", "CNN", "Isolation Forest"])`. -/
inductive ModelChoice where
  | xgboost
  | cnn
  | isolationForest
deriving DecidableEq

/-- The string the source's choice list holds for each variant. -/
def ModelChoice.pyName : ModelChoice → String
  | .xgboost => "XGBoost"
  | .cnn => "CNN"
  | .isolationForest => "Isolation Forest"

/-- The per-request nondeterminism of `analyze_satellite`: the model
draw, the (opaque) native outputs each model would produce on the scaled
features, and the anomaly-cause draw. -/
structure Oracle where
  model_choice : ModelChoice
  xgb_proba : ℚ
  cnn_proba : ℚ
  iso_pred : ℚ
  iso_raw : ℚ
  reason_idx : Fin ANOMALY_DETAILS_MAP.length

/-- Outcome of one `analyze_satellite` request.  `loadFailure` is the
exception propagating out of `load_models_if_needed` (a 500);
`badInput`/`parseFailure` are the two 400 responses; `scalerCrash` is
the unhandled `AttributeError` of `models["scaler"].transform` when the
scaler slot is still `None` (a 500). -/
inductive AnalyzeResult where
  | loadFailure
  | badInput
  | parseFailure
  | scalerCrash
  | ok (r : RiskAssessment)
deriving DecidableEq

/-- `analyze_satellite()`: load models, validate the request body
(`none` models a JSON body missing `TLE_LINE1` or `TLE_LINE2`), parse
the TLE pair, scale, run the drawn model and synthesize the assessment.
Returns the registry as the request leaves it together with the
outcome. -/
def analyze_satellite (env : LoadEnv) (o : Oracle) (st : Registry)
    (req : Option (String × String)) : Registry × AnalyzeResult :=
  let r := load_models_if_needed env st
  if r.2.2 then (r.1, .loadFailure)
  else
    match req with
    | none => (r.1, .badInput)
    | some (l1, l2) =>
      match parse_tle_to_features l1 l2 with
      | none => (r.1, .parseFailure)
      | some _ =>
        if r.1.scaler = none then (r.1, .scalerCrash)
        else
          let ps : ℚ × ℚ :=
            match o.model_choice with
            | .xgboost => ((if o.xgb_proba > 0.5 then 1 else 0), xgbScore o.xgb_proba)
            | .cnn => ((if o.cnn_proba > 0.5 then 1 else 0), cnnScore o.cnn_proba)
            | .isolationForest => (o.iso_pred, isoScore o.iso_raw)
          (r.1, .ok (generate_risk_assessment ps.1 ps.2 o.model_choice.pyName o.reason_idx))

/-- A sequence of `analyze_satellite` requests served one after the
other against the shared `models` dictionary. -/
def runCalls (env : LoadEnv) (o : Oracle) :
    Registry → List (Option (String × String)) → Registry × List AnalyzeResult
  | st, [] => (st, [])
  | st, req :: rest =>
    let r := analyze_satellite env o st req
    let rs := runCalls env o r.1 rest
    (rs.1, r.2 :: rs.2)

/-- `n` callers hitting `load_models_if_needed` concurrently: the lock
covers the whole check-and-load body, so every interleaving is
equivalent to some sequential order of the `n` critical sections, which
this function runs.  Returns the final registry, how many callers
entered the load branch, and how many saw the exception. -/
def loadRun (env : LoadEnv) : ℕ → Registry → Registry × ℕ × ℕ
  | 0, st => (st, 0, 0)
  | n + 1, st =>
    let r := load_models_if_needed env st
    let rest := loadRun env n r.1
    (rest.1, (if r.2.1 then 1 else 0) + rest.2.1, (if r.2.2 then 1 else 0) + rest.2.2)

/-! Concrete inputs used by witnesses and counterexamples. -/

/-- Index of the first catalog entry, standing in for one concrete
`random.choice` draw. -/
def reason0 : Fin ANOMALY_DETAILS_MAP.length := ⟨0, by decide⟩

/-- A TLE line 1 of 61 characters whose required slices are all numeric. -/
def tleLine1Short : String := "0000000000000000000000000000000000000000000000000000000000000"

/-- A TLE line 2 of 63 characters whose required slices are all numeric. -/
def tleLine2Short : String := "000000000000000000000000000000000000000000000000000000000000000"

/-- A TLE line 2 of 63 characters whose inclination column (8:16) holds
the CPython-accepted literal `inf`. -/
def tleLine2Inf : String := "00000000     inf00000000000000000000000000000000000000000000000"

/-- The feature vector decoded from the all-zero line pair. -/
def zeroFeatures : Features :=
  ⟨.finite 0, .finite 0, .finite 0, .finite 0, .finite 0, .finite 0, .finite 0, .finite 0⟩

/-- The feature vector decoded from `tleLine1Short`/`tleLine2Inf`: every
field populated, the inclination infinite. -/
def infFeatures : Features :=
  ⟨.finite 0, .finite 0, .inf, .finite 0, .finite 0, .finite 0, .finite 0, .finite 0⟩

/-- An environment where every load step succeeds. -/
def envAllOk : LoadEnv := ⟨true, true, true, true, true⟩

/-- An environment where loading the CNN artifact fails (after the xgb
slot has been assigned). -/
def envCnnFail : LoadEnv := ⟨true, true, false, true, true⟩

/-- An environment where the `XGBClassifier()` construction itself
fails, before any slot is assigned. -/
def envCtorFail : LoadEnv := ⟨false, true, true, true, true⟩

/-- The registry left behind by a load attempt that failed at the CNN
step: the xgb slot populated, everything else empty. -/
def partialReg : Registry := ⟨some true, none, none, none⟩

/-- The fully loaded registry. -/
def fullReg : Registry := ⟨some true, some (), some (), some ()⟩

/-- One concrete draw of the per-request nondeterminism. -/
def oracleDefault : Oracle := ⟨.xgboost, 1/2, 1/2, 1, 0, reason0⟩


/-! ## Helper lemmas on the risk synthesizer -/

/-- On the XGBoost branch the anomaly flag is `prediction > 0.5`. -/
theorem is_anomaly_of_xgb (p : ℚ) : is_anomaly_of "XGBoost" p = decide (p > 0.5) := by
  unfold is_anomaly_of
  rw [if_pos (Or.inl rfl)]

/-- On the CNN branch the anomaly flag is `prediction > 0.5`. -/
theorem is_anomaly_of_cnn (p : ℚ) : is_anomaly_of "CNN" p = decide (p > 0.5) := by
  unfold is_anomaly_of
  rw [if_pos (Or.inr rfl)]

/-- On the Isolation Forest branch the anomaly flag is `prediction == -1`. -/
theorem is_anomaly_of_iso (l : ℚ) :
    is_anomaly_of "Isolation Forest" l = decide (l = -1) := by
  unfold is_anomaly_of
  rw [if_neg (by decide), if_pos rfl]

/-- The record returned when the anomaly flag is false. -/
theorem genRisk_not_anomalous (prediction score : ℚ) (model_name : String)
    (i : Fin ANOMALY_DETAILS_MAP.length) (h : is_anomaly_of model_name prediction = false) :
    generate_risk_assessment prediction score model_name i =
      { description := "No anomalous behavior detected. All orbital parameters are within expected operational limits.",
        assessment := "The satellite appears to be functioning normally. No immediate threats identified.",
        riskLevel := "Informational",
        riskScore := pyInt (score * 100),
        mitreTechnique := "N/A",
        spartaClassification := "N/A" } := by
  unfold generate_risk_assessment
  rw [h, if_pos rfl]

/-- The record returned when the anomaly flag is true. -/
theorem genRisk_anomalous (prediction score : ℚ) (model_name : String)
    (i : Fin ANOMALY_DETAILS_MAP.length) (h : is_anomaly_of model_name prediction = true) :
    generate_risk_assessment prediction score model_name i =
      { description := (ANOMALY_DETAILS_MAP.get i).2.description,
        assessment := "(" ++ model_name ++ " Model): " ++ (ANOMALY_DETAILS_MAP.get i).2.assessment,
        riskLevel := risk_level_of (pyInt (score * 100)),
        riskScore := pyInt (score * 100),
        mitreTechnique := (ANOMALY_DETAILS_MAP.get i).2.mitre,
        spartaClassification := (ANOMALY_DETAILS_MAP.get i).2.sparta } := by
  unfold generate_risk_assessment
  rw [h, if_neg (by decide)]

/-- Prediction 1 trips the XGBoost anomaly flag. -/
theorem xgb_one_anomalous : is_anomaly_of "XGBoost" 1 = true := by
  rw [is_anomaly_of_xgb]
  norm_num

/-- Prediction 0 leaves the XGBoost anomaly flag down. -/
theorem xgb_zero_not_anomalous : is_anomaly_of "XGBoost" 0 = false := by
  rw [is_anomaly_of_xgb]
  norm_num

/-! ## C1 -/

/-- C1 counterexample: for the non-anomalous XGBoost output with
normalized score 999/1000 the synthesizer computes riskScore 99, while
`round(normalized_score * 100) = 100`: the code truncates with `int()`,
it does not round. -/
theorem c1_riskScore_not_rounded :
    (generate_risk_assessment 0 (999/1000) "XGBoost" reason0).riskScore = 99 ∧
    round ((999/1000 : ℚ) * 100) = 100 ∧
    (generate_risk_assessment 0 (999/1000) "XGBoost" reason0).riskScore ≠
      round ((999/1000 : ℚ) * 100) := by
  have hrs : (generate_risk_assessment 0 (999/1000) "XGBoost" reason0).riskScore = 99 := by
    rw [genRisk_not_anomalous 0 (999/1000) "XGBoost" reason0 xgb_zero_not_anomalous]
    norm_num [pyInt]
  have hround : round ((999/1000 : ℚ) * 100) = 100 := by
    rw [round_eq]
    norm_num
  exact ⟨hrs, hround, by rw [hrs, hround]; decide⟩

/-- C1 (amended): in both branches `riskScore = int(score * 100)` —
truncation toward zero, the floor of the scaled score, not its rounding
— and it is an integer in [0, 100] whenever the normalized score lies
in [0, 1]. -/
theorem c1_riskScore_truncated_in_range (prediction score : ℚ) (model_name : String)
    (i : Fin ANOMALY_DETAILS_MAP.length) (h0 : 0 ≤ score) (h1 : score ≤ 1) :
    (generate_risk_assessment prediction score model_name i).riskScore = pyInt (score * 100) ∧
    (generate_risk_assessment prediction score model_name i).riskScore = ⌊score * 100⌋ ∧
    0 ≤ (generate_risk_assessment prediction score model_name i).riskScore ∧
    (generate_risk_assessment prediction score model_name i).riskScore ≤ 100 := by
  have hq0 : (0 : ℚ) ≤ score * 100 := by positivity
  have hsc : (generate_risk_assessment prediction score model_name i).riskScore
      = pyInt (score * 100) := by
    unfold generate_risk_assessment
    split <;> rfl
  have hfl : pyInt (score * 100) = ⌊score * 100⌋ := if_pos hq0
  refine ⟨hsc, hsc.trans hfl, ?_, ?_⟩
  · rw [hsc, hfl]
    exact Int.le_floor.mpr (by exact_mod_cast hq0)
  · rw [hsc, hfl]
    have h100 : score * 100 ≤ 100 := by nlinarith
    calc ⌊score * 100⌋ ≤ ⌊(100 : ℚ)⌋ := Int.floor_le_floor h100
    _ = 100 := by norm_num

/-- Witness for C1 (amended) at prediction 0, score 999/1000. -/
theorem c1_riskScore_truncated_in_range_witness :
    (0 : ℚ) ≤ 999/1000 ∧ (999/1000 : ℚ) ≤ 1 ∧
    ((generate_risk_assessment 0 (999/1000) "XGBoost" reason0).riskScore
        = pyInt ((999/1000) * 100) ∧
      (generate_risk_assessment 0 (999/1000) "XGBoost" reason0).riskScore
        = ⌊(999/1000 : ℚ) * 100⌋ ∧
      0 ≤ (generate_risk_assessment 0 (999/1000) "XGBoost" reason0).riskScore ∧
      (generate_risk_assessment 0 (999/1000) "XGBoost" reason0).riskScore ≤ 100) :=
  ⟨by norm_num, by norm_num,
    c1_riskScore_truncated_in_range 0 (999/1000) "XGBoost" reason0 (by norm_num) (by norm_num)⟩

/-! ## C2 -/

/-- C2: for every anomalous output the risk level is mapped from the
riskScore by the strict thresholds evaluated high to low (85, 70, 40),
and the boundaries are exact: riskScore 85 is not Critical, 86 is
Critical, 70 is not High, 71 is High. -/
theorem c2_threshold_mapping (prediction score : ℚ) (model_name : String)
    (i : Fin ANOMALY_DETAILS_MAP.length) (h : is_anomaly_of model_name prediction = true) :
    ((generate_risk_assessment prediction score model_name i).riskLevel =
      if 85 < (generate_risk_assessment prediction score model_name i).riskScore then "Critical"
      else if 70 < (generate_risk_assessment prediction score model_name i).riskScore then "High"
      else if 40 < (generate_risk_assessment prediction score model_name i).riskScore then "Moderate"
      else "Low") ∧
    (generate_risk_assessment 1 (85/100) "XGBoost" reason0).riskScore = 85 ∧
    (generate_risk_assessment 1 (85/100) "XGBoost" reason0).riskLevel ≠ "Critical" ∧
    (generate_risk_assessment 1 (86/100) "XGBoost" reason0).riskScore = 86 ∧
    (generate_risk_assessment 1 (86/100) "XGBoost" reason0).riskLevel = "Critical" ∧
    (generate_risk_assessment 1 (70/100) "XGBoost" reason0).riskScore = 70 ∧
    (generate_risk_assessment 1 (70/100) "XGBoost" reason0).riskLevel ≠ "High" ∧
    (generate_risk_assessment 1 (71/100) "XGBoost" reason0).riskScore = 71 ∧
    (generate_risk_assessment 1 (71/100) "XGBoost" reason0).riskLevel = "High" := by
  have h85 := genRisk_anomalous 1 (85/100) "XGBoost" reason0 xgb_one_anomalous
  have h86 := genRisk_anomalous 1 (86/100) "XGBoost" reason0 xgb_one_anomalous
  have h70 := genRisk_anomalous 1 (70/100) "XGBoost" reason0 xgb_one_anomalous
  have h71 := genRisk_anomalous 1 (71/100) "XGBoost" reason0 xgb_one_anomalous
  refine ⟨?_, ?_, ?_, ?_, ?_, ?_, ?_, ?_, ?_⟩
  · rw [genRisk_anomalous prediction score model_name i h]
    rfl
  · rw [h85]; norm_num [pyInt]
  · rw [h85]; norm_num [pyInt, risk_level_of]; decide
  · rw [h86]; norm_num [pyInt]
  · rw [h86]; norm_num [pyInt, risk_level_of]
  · rw [h70]; norm_num [pyInt]
  · rw [h70]; norm_num [pyInt, risk_level_of]; decide
  · rw [h71]; norm_num [pyInt]
  · rw [h71]; norm_num [pyInt, risk_level_of]

/-- Witness for C2 at the anomalous XGBoost output with prediction 1
and score 1/2. -/
theorem c2_threshold_mapping_witness :
    is_anomaly_of "XGBoost" 1 = true ∧
    (((generate_risk_assessment 1 (1/2) "XGBoost" reason0).riskLevel =
      if 85 < (generate_risk_assessment 1 (1/2) "XGBoost" reason0).riskScore then "Critical"
      else if 70 < (generate_risk_assessment 1 (1/2) "XGBoost" reason0).riskScore then "High"
      else if 40 < (generate_risk_assessment 1 (1/2) "XGBoost" reason0).riskScore then "Moderate"
      else "Low") ∧
    (generate_risk_assessment 1 (85/100) "XGBoost" reason0).riskScore = 85 ∧
    (generate_risk_assessment 1 (85/100) "XGBoost" reason0).riskLevel ≠ "Critical" ∧
    (generate_risk_assessment 1 (86/100) "XGBoost" reason0).riskScore = 86 ∧
    (generate_risk_assessment 1 (86/100) "XGBoost" reason0).riskLevel = "Critical" ∧
    (generate_risk_assessment 1 (70/100) "XGBoost" reason0).riskScore = 70 ∧
    (generate_risk_assessment 1 (70/100) "XGBoost" reason0).riskLevel ≠ "High" ∧
    (generate_risk_assessment 1 (71/100) "XGBoost" reason0).riskScore = 71 ∧
    (generate_risk_assessment 1 (71/100) "XGBoost" reason0).riskLevel = "High") :=
  ⟨xgb_one_anomalous, c2_threshold_mapping 1 (1/2) "XGBoost" reason0 xgb_one_anomalous⟩

/-! ## C3 -/

/-- C3: whenever the computed anomaly flag is false the synthesizer
emits exactly the fixed Informational record — constant description and
assessment strings, riskLevel "Informational", taxonomy codes "N/A" —
regardless of the score; in particular scores 0.01 and 0.99 both yield
"Informational". -/
theorem c3_informational_record (prediction score : ℚ) (model_name : String)
    (i : Fin ANOMALY_DETAILS_MAP.length) (h : is_anomaly_of model_name prediction = false) :
    generate_risk_assessment prediction score model_name i =
      { description := "No anomalous behavior detected. All orbital parameters are within expected operational limits.",
        assessment := "The satellite appears to be functioning normally. No immediate threats identified.",
        riskLevel := "Informational",
        riskScore := pyInt (score * 100),
        mitreTechnique := "N/A",
        spartaClassification := "N/A" } ∧
    (generate_risk_assessment 0 (1/100) "XGBoost" reason0).riskLevel = "Informational" ∧
    (generate_risk_assessment 0 (99/100) "XGBoost" reason0).riskLevel = "Informational" := by
  refine ⟨genRisk_not_anomalous prediction score model_name i h, ?_, ?_⟩
  · rw [genRisk_not_anomalous 0 (1/100) "XGBoost" reason0 xgb_zero_not_anomalous]
  · rw [genRisk_not_anomalous 0 (99/100) "XGBoost" reason0 xgb_zero_not_anomalous]

/-- Witness for C3 at the non-anomalous XGBoost output with prediction
0 and score 1/100. -/
theorem c3_informational_record_witness :
    is_anomaly_of "XGBoost" 0 = false ∧
    (generate_risk_assessment 0 (1/100) "XGBoost" reason0 =
      { description := "No anomalous behavior detected. All orbital parameters are within expected operational limits.",
        assessment := "The satellite appears to be functioning normally. No immediate threats identified.",
        riskLevel := "Informational",
        riskScore := pyInt ((1/100) * 100),
        mitreTechnique := "N/A",
        spartaClassification := "N/A" } ∧
      (generate_risk_assessment 0 (1/100) "XGBoost" reason0).riskLevel = "Informational" ∧
      (generate_risk_assessment 0 (99/100) "XGBoost" reason0).riskLevel = "Informational") :=
  ⟨xgb_zero_not_anomalous, c3_informational_record 0 (1/100) "XGBoost" reason0 xgb_zero_not_anomalous⟩

/-! ## C6 -/

/-- C6: every scorer variant's normalized score lies in [0, 1] for any
finite native output in the variant's native range — a class
probability or sigmoid output in [0, 1] passed through directly, and an
arbitrary (unbounded) decision-function value for Isolation Forest; in
particular decision value −10 clamps to score exactly 1. -/
theorem c6_normalized_score_in_unit_interval (p d : ℚ) (h0 : 0 ≤ p) (h1 : p ≤ 1) :
    (0 ≤ xgbScore p ∧ xgbScore p ≤ 1) ∧
    (0 ≤ cnnScore p ∧ cnnScore p ≤ 1) ∧
    (0 ≤ isoScore d ∧ isoScore d ≤ 1) ∧
    isoScore (-10) = 1 := by
  have hm0 : (0 : ℚ) ≤ max 0 (min 1 ((d + 0.15) / 0.2)) := le_max_left _ _
  have hm1 : max 0 (min 1 ((d + 0.15) / 0.2)) ≤ 1 :=
    max_le (by norm_num) (min_le_left _ _)
  refine ⟨⟨h0, h1⟩, ⟨h0, h1⟩, ⟨?_, ?_⟩, ?_⟩
  · unfold isoScore
    linarith
  · unfold isoScore
    linarith
  · norm_num [isoScore, max_def, min_def]

/-- Witness for C6 at probability 1/2 and decision value 7. -/
theorem c6_normalized_score_in_unit_interval_witness :
    (0 : ℚ) ≤ 1/2 ∧ (1/2 : ℚ) ≤ 1 ∧
    ((0 ≤ xgbScore (1/2) ∧ xgbScore (1/2) ≤ 1) ∧
      (0 ≤ cnnScore (1/2) ∧ cnnScore (1/2) ≤ 1) ∧
      (0 ≤ isoScore 7 ∧ isoScore 7 ≤ 1) ∧
      isoScore (-10) = 1) :=
  ⟨by norm_num, by norm_num,
    c6_normalized_score_in_unit_interval (1/2) 7 (by norm_num) (by norm_num)⟩

/-! ## C7 -/

/-- C7: the Isolation Forest branch flags an anomaly exactly when the
predicted label is the outlier label −1, and its score normalization is
exactly the specification's constant mapping
`1 − clamp((d + 0.15) / 0.2, 0, 1)`. -/
theorem c7_iso_anomaly_rule_and_scaling :
    (∀ label : ℚ, is_anomaly_of "Isolation Forest" label = true ↔ label = -1) ∧
    (∀ d : ℚ, isoScore d = specIsoScore d) := by
  constructor
  · intro label
    rw [is_anomaly_of_iso]
    simp
  · intro d
    rfl

/-! ## C10 -/

/-- C10: the anomaly-cause catalog holds exactly the four entries
inclination, eccentricity, bstar_drag and mean_motion; every anomalous
assessment draws its description, MITRE technique and SPARTA
classification together from one catalog entry, and the cited cause is
never one of the other four features. -/
theorem c10_catalog_four_causes (prediction score : ℚ) (model_name : String)
    (i : Fin ANOMALY_DETAILS_MAP.length) (h : is_anomaly_of model_name prediction = true) :
    ANOMALY_DETAILS_MAP.map Prod.fst =
      ["inclination", "eccentricity", "bstar_drag", "mean_motion"] ∧
    ∃ entry ∈ ANOMALY_DETAILS_MAP,
      (generate_risk_assessment prediction score model_name i).description =
        entry.2.description ∧
      (generate_risk_assessment prediction score model_name i).mitreTechnique =
        entry.2.mitre ∧
      (generate_risk_assessment prediction score model_name i).spartaClassification =
        entry.2.sparta ∧
      entry.1 ∉ ["raan", "arg_of_perigee", "mean_anomaly", "first_derivative_mean_motion"] := by
  have hmem : ANOMALY_DETAILS_MAP.get i ∈ ANOMALY_DETAILS_MAP :=
    ANOMALY_DETAILS_MAP.get_mem i.1 i.2
  have hall : ∀ e ∈ ANOMALY_DETAILS_MAP,
      e.1 ∉ ["raan", "arg_of_perigee", "mean_anomaly", "first_derivative_mean_motion"] := by
    decide
  refine ⟨by decide, ANOMALY_DETAILS_MAP.get i, hmem, ?_, ?_, ?_, hall _ hmem⟩
  · rw [genRisk_anomalous prediction score model_name i h]
  · rw [genRisk_anomalous prediction score model_name i h]
  · rw [genRisk_anomalous prediction score model_name i h]

/-- Witness for C10 at the anomalous XGBoost output with prediction 1
and score 9/10. -/
theorem c10_catalog_four_causes_witness :
    is_anomaly_of "XGBoost" 1 = true ∧
    (ANOMALY_DETAILS_MAP.map Prod.fst =
      ["inclination", "eccentricity", "bstar_drag", "mean_motion"] ∧
    ∃ entry ∈ ANOMALY_DETAILS_MAP,
      (generate_risk_assessment 1 (9/10) "XGBoost" reason0).description =
        entry.2.description ∧
      (generate_risk_assessment 1 (9/10) "XGBoost" reason0).mitreTechnique =
        entry.2.mitre ∧
      (generate_risk_assessment 1 (9/10) "XGBoost" reason0).spartaClassification =
        entry.2.sparta ∧
      entry.1 ∉ ["raan", "arg_of_perigee", "mean_anomaly", "first_derivative_mean_motion"]) :=
  ⟨xgb_one_anomalous, c10_catalog_four_causes 1 (9/10) "XGBoost" reason0 xgb_one_anomalous⟩

/-! ## Helper lemmas on the TLE extractor -/

/-- `parse_tle_to_features` succeeds exactly when all required column
parses succeed, and then every field holds the corresponding parsed
value. -/
theorem parse_eq_some_iff (l1 l2 : String) (f : Features) :
    parse_tle_to_features l1 l2 = some f ↔
    ∃ fdmm bmant bexp inc raan ecc argp ma mm,
      pyFloat? (pySlice l1 33 43) = some fdmm ∧
      pyFloat? (pySlice l1 53 59) = some bmant ∧
      pyFloat? (pySlice l1 59 61) = some bexp ∧
      pyFloat? (pySlice l2 8 16) = some inc ∧
      pyFloat? (pySlice l2 17 25) = some raan ∧
      pyFloat? ("." ++ pySlice l2 26 33) = some ecc ∧
      pyFloat? (pySlice l2 34 42) = some argp ∧
      pyFloat? (pySlice l2 43 51) = some ma ∧
      pyFloat? (pySlice l2 52 63) = some mm ∧
      f = ⟨fdmm, pyMul bmant (pow10 (pyNegF bexp)), inc, raan, ecc, argp, ma, mm⟩ := by
  unfold parse_tle_to_features
  simp only [bind, Option.bind_eq_some, Option.pure_def, Option.some.injEq]
  constructor
  · rintro ⟨fdmm, h1, bmant, h2, bexp, h3, inc, h4, raan, h5, ecc, h6, argp, h7, ma, h8, mm, h9, hf⟩
    exact ⟨fdmm, bmant, bexp, inc, raan, ecc, argp, ma, mm,
      h1, h2, h3, h4, h5, h6, h7, h8, h9, hf.symm⟩
  · rintro ⟨fdmm, bmant, bexp, inc, raan, ecc, argp, ma, mm,
      h1, h2, h3, h4, h5, h6, h7, h8, h9, rfl⟩
    exact ⟨fdmm, h1, bmant, h2, bexp, h3, inc, h4, raan, h5, ecc, h6,
      argp, h7, ma, h8, mm, h9, rfl⟩

/-- A slice beginning at or beyond the end of the string is empty. -/
theorem pySlice_empty_of_len_le (s : String) (a b : ℕ) (h : s.length ≤ a) :
    pySlice s a b = "" := by
  have hlen : s.toList.length ≤ a := h
  unfold pySlice
  rw [List.drop_eq_nil_of_le hlen, List.take_nil]
  rfl

/-- CPython raises `ValueError` on `float("")`. -/
theorem pyFloat_empty_none : pyFloat? "" = none := rfl

/-! ## C4 -/

/-- C4 counterexample: a line pair of 61 and 63 characters — both
shorter than 69 — on which extraction succeeds, because every required
column slice is still present and numeric.  A short line does not by
itself yield a parse error. -/
theorem c4_short_lines_still_parse :
    tleLine1Short.length = 61 ∧ tleLine2Short.length = 63 ∧
    tleLine1Short.length < 69 ∧ tleLine2Short.length < 69 ∧
    (parse_tle_to_features tleLine1Short tleLine2Short).isSome = true :=
  ⟨by decide, by decide, by decide, by decide, by decide⟩

/-- C4 (amended): extraction is all-or-nothing — it succeeds only when
every required column parses as a Python float, so any non-numeric
content at a required column yields the error — and a short line fails
only once it cuts off a required slice: line 1 of at most 33 characters
(or line 2 of at most 52) makes a required slice empty and extraction
returns the error, while lines shorter than 69 characters whose
required slices survive can still parse. -/
theorem c4_error_all_or_nothing (l1 l2 : String) :
    ((parse_tle_to_features l1 l2).isSome = true →
      (pyFloat? (pySlice l1 33 43)).isSome = true ∧
      (pyFloat? (pySlice l1 53 59)).isSome = true ∧
      (pyFloat? (pySlice l1 59 61)).isSome = true ∧
      (pyFloat? (pySlice l2 8 16)).isSome = true ∧
      (pyFloat? (pySlice l2 17 25)).isSome = true ∧
      (pyFloat? ("." ++ pySlice l2 26 33)).isSome = true ∧
      (pyFloat? (pySlice l2 34 42)).isSome = true ∧
      (pyFloat? (pySlice l2 43 51)).isSome = true ∧
      (pyFloat? (pySlice l2 52 63)).isSome = true) ∧
    (l1.length ≤ 33 → parse_tle_to_features l1 l2 = none) ∧
    (l2.length ≤ 52 → parse_tle_to_features l1 l2 = none) := by
  refine ⟨?_, ?_, ?_⟩
  · intro h
    obtain ⟨f, hf⟩ := Option.isSome_iff_exists.mp h
    obtain ⟨fdmm, bmant, bexp, inc, raan, ecc, argp, ma, mm,
      h1, h2, h3, h4, h5, h6, h7, h8, h9, _⟩ := (parse_eq_some_iff l1 l2 f).mp hf
    exact ⟨by rw [h1]; rfl, by rw [h2]; rfl, by rw [h3]; rfl, by rw [h4]; rfl,
      by rw [h5]; rfl, by rw [h6]; rfl, by rw [h7]; rfl, by rw [h8]; rfl, by rw [h9]; rfl⟩
  · intro hlen
    cases hp : parse_tle_to_features l1 l2 with
    | none => rfl
    | some f =>
      obtain ⟨fdmm, bmant, bexp, inc, raan, ecc, argp, ma, mm,
        h1, _, _, _, _, _, _, _, _, _⟩ := (parse_eq_some_iff l1 l2 f).mp hp
      rw [pySlice_empty_of_len_le l1 33 43 hlen, pyFloat_empty_none] at h1
      exact Option.noConfusion h1
  · intro hlen
    cases hp : parse_tle_to_features l1 l2 with
    | none => rfl
    | some f =>
      obtain ⟨fdmm, bmant, bexp, inc, raan, ecc, argp, ma, mm,
        _, _, _, _, _, _, _, _, h9, _⟩ := (parse_eq_some_iff l1 l2 f).mp hp
      rw [pySlice_empty_of_len_le l2 52 63 hlen, pyFloat_empty_none] at h9
      exact Option.noConfusion h9

/-! ## C5 -/

/-- C5 counterexample: a line pair whose inclination column holds the
CPython-accepted literal `inf`; extraction succeeds and the returned
vector's inclination field is non-finite, so finiteness is not part of
the extraction invariant. -/
theorem c5_nonfinite_field_accepted :
    (parse_tle_to_features tleLine1Short tleLine2Inf).isSome = true ∧
    (parse_tle_to_features tleLine1Short tleLine2Inf).map Features.inclination =
      some PyFloat.inf ∧
    PyFloat.inf.isFinite = false :=
  ⟨by decide, by decide, rfl⟩

/-- C5 (amended): when extraction succeeds all 8 fields are populated
with exactly the values the required columns parse to — extraction
never partially succeeds — but finiteness is not validated: a column
holding an `inf`/`nan` literal yields a successful parse whose field is
non-finite. -/
theorem c5_fields_are_column_parses (l1 l2 : String)
    (h : (parse_tle_to_features l1 l2).isSome = true) :
    (parse_tle_to_features l1 l2).map Features.first_derivative_mean_motion =
      pyFloat? (pySlice l1 33 43) ∧
    (parse_tle_to_features l1 l2).map Features.inclination = pyFloat? (pySlice l2 8 16) ∧
    (parse_tle_to_features l1 l2).map Features.raan = pyFloat? (pySlice l2 17 25) ∧
    (parse_tle_to_features l1 l2).map Features.eccentricity =
      pyFloat? ("." ++ pySlice l2 26 33) ∧
    (parse_tle_to_features l1 l2).map Features.arg_of_perigee = pyFloat? (pySlice l2 34 42) ∧
    (parse_tle_to_features l1 l2).map Features.mean_anomaly = pyFloat? (pySlice l2 43 51) ∧
    (parse_tle_to_features l1 l2).map Features.mean_motion = pyFloat? (pySlice l2 52 63) ∧
    ∃ bmant bexp,
      pyFloat? (pySlice l1 53 59) = some bmant ∧
      pyFloat? (pySlice l1 59 61) = some bexp ∧
      (parse_tle_to_features l1 l2).map Features.bstar_drag =
        some (pyMul bmant (pow10 (pyNegF bexp))) := by
  obtain ⟨f, hf⟩ := Option.isSome_iff_exists.mp h
  obtain ⟨fdmm, bmant, bexp, inc, raan, ecc, argp, ma, mm,
    h1, h2, h3, h4, h5, h6, h7, h8, h9, hfe⟩ := (parse_eq_some_iff l1 l2 f).mp hf
  subst hfe
  rw [hf]
  exact ⟨by simp [h1], by simp [h4], by simp [h5], by simp [h6], by simp [h7], by simp [h8],
    by simp [h9], bmant, bexp, h2, h3, rfl⟩

/-- Witness for C5 (amended) on the all-zero short line pair. -/
theorem c5_fields_are_column_parses_witness :
    (parse_tle_to_features tleLine1Short tleLine2Short).isSome = true ∧
    ((parse_tle_to_features tleLine1Short tleLine2Short).map Features.first_derivative_mean_motion =
      pyFloat? (pySlice tleLine1Short 33 43) ∧
    (parse_tle_to_features tleLine1Short tleLine2Short).map Features.inclination =
      pyFloat? (pySlice tleLine2Short 8 16) ∧
    (parse_tle_to_features tleLine1Short tleLine2Short).map Features.raan =
      pyFloat? (pySlice tleLine2Short 17 25) ∧
    (parse_tle_to_features tleLine1Short tleLine2Short).map Features.eccentricity =
      pyFloat? ("." ++ pySlice tleLine2Short 26 33) ∧
    (parse_tle_to_features tleLine1Short tleLine2Short).map Features.arg_of_perigee =
      pyFloat? (pySlice tleLine2Short 34 42) ∧
    (parse_tle_to_features tleLine1Short tleLine2Short).map Features.mean_anomaly =
      pyFloat? (pySlice tleLine2Short 43 51) ∧
    (parse_tle_to_features tleLine1Short tleLine2Short).map Features.mean_motion =
      pyFloat? (pySlice tleLine2Short 52 63) ∧
    ∃ bmant bexp,
      pyFloat? (pySlice tleLine1Short 53 59) = some bmant ∧
      pyFloat? (pySlice tleLine1Short 59 61) = some bexp ∧
      (parse_tle_to_features tleLine1Short tleLine2Short).map Features.bstar_drag =
        some (pyMul bmant (pow10 (pyNegF bexp)))) :=
  ⟨by decide, c5_fields_are_column_parses tleLine1Short tleLine2Short (by decide)⟩

/-! ## Helper lemmas on the model registry -/

/-- From the empty registry, a load attempt in an environment with any
failing step raises. -/
theorem load_raises_from_empty (env : LoadEnv) (h : env.allOk = false) :
    (load_models_if_needed env emptyRegistry).2.2 = true := by
  revert h
  revert env
  decide

/-- A failing environment never populates the scaler slot. -/
theorem scaler_none_preserved (env : LoadEnv) (st : Registry)
    (henv : env.allOk = false) (hst : st.scaler = none) :
    ((load_models_if_needed env st).1).scaler = none := by
  revert henv hst
  revert env st
  decide

/-- From the empty registry, a fully successful environment loads every
slot in one attempt without raising. -/
theorem load_full (env : LoadEnv) (h : env.allOk = true) :
    load_models_if_needed env emptyRegistry = (fullReg, true, false) := by
  revert h
  revert env
  decide

/-- Once the xgb slot is non-empty the guard skips loading entirely. -/
theorem load_skip (env : LoadEnv) (st : Registry) (h : st.xgb ≠ none) :
    load_models_if_needed env st = (st, false, false) := by
  revert h
  revert env st
  decide

/-- When the `XGBClassifier()` construction itself fails, nothing is
assigned and the caller sees the exception. -/
theorem load_ctor_fail (env : LoadEnv) (h : env.xgbCtorOk = false) :
    load_models_if_needed env emptyRegistry = (emptyRegistry, true, true) := by
  revert h
  revert env
  decide

/-- Once the xgb slot is non-empty, any number of further callers skip
loading and the registry never changes. -/
theorem loadRun_skip (env : LoadEnv) (k : ℕ) (st : Registry) (h : st.xgb ≠ none) :
    loadRun env k st = (st, 0, 0) := by
  induction k with
  | zero => rfl
  | succ j ih =>
    simp [loadRun, load_skip env st h, ih]

/-- A single request against a registry whose scaler slot is empty, in a
failing environment, never produces a successful assessment, and leaves
the scaler slot empty. -/
theorem analyze_no_ok_of_scaler_none (env : LoadEnv) (o : Oracle) (st : Registry)
    (req : Option (String × String)) (henv : env.allOk = false) (hst : st.scaler = none) :
    (∀ a, (analyze_satellite env o st req).2 ≠ AnalyzeResult.ok a) ∧
    ((analyze_satellite env o st req).1).scaler = none := by
  have hs : ((load_models_if_needed env st).1).scaler = none :=
    scaler_none_preserved env st henv hst
  unfold analyze_satellite
  cases hb : (load_models_if_needed env st).2.2 with
  | true => simp [hb, hs]
  | false =>
    rcases req with _ | ⟨l1, l2⟩
    · simp [hb, hs]
    · cases hp : parse_tle_to_features l1 l2 with
      | none => simp [hb, hp, hs]
      | some f => simp [hb, hp, hs]

/-- No request in a sequence served after a load failure ever produces a
successful assessment. -/
theorem runCalls_no_ok (env : LoadEnv) (o : Oracle) (henv : env.allOk = false) :
    ∀ (reqs : List (Option (String × String))) (st : Registry), st.scaler = none →
      ∀ r ∈ (runCalls env o st reqs).2, ∀ a, r ≠ AnalyzeResult.ok a := by
  intro reqs
  induction reqs with
  | nil =>
    intro st _ r hr
    simp [runCalls] at hr
  | cons req rest ih =>
    intro st hst r hr
    simp only [runCalls, List.mem_cons] at hr
    rcases hr with rfl | hr
    · exact (analyze_no_ok_of_scaler_none env o st req henv hst).1
    · exact ih ((analyze_satellite env o st req).1)
        (analyze_no_ok_of_scaler_none env o st req henv hst).2 r hr

/-! ## C8 -/

/-- C8 counterexample: with the CNN artifact failing to load, the first
request raises the load failure, but the next request with missing TLE
fields receives the ordinary 400 input error — the initialization
failure is not propagated to it — and a request with a valid TLE gets
past the guard into the request body (crashing only later at the empty
scaler slot), while the registry is observably partial: the xgb slot is
populated and the scaler slot empty. -/
theorem c8_failure_not_propagated :
    (analyze_satellite envCnnFail oracleDefault emptyRegistry none).2 =
      AnalyzeResult.loadFailure ∧
    (analyze_satellite envCnnFail oracleDefault
      (analyze_satellite envCnnFail oracleDefault emptyRegistry none).1 none).2 =
      AnalyzeResult.badInput ∧
    (analyze_satellite envCnnFail oracleDefault
      (analyze_satellite envCnnFail oracleDefault emptyRegistry none).1
      (some (tleLine1Short, tleLine2Short))).2 = AnalyzeResult.scalerCrash ∧
    ((analyze_satellite envCnnFail oracleDefault emptyRegistry none).1).xgb = some true ∧
    ((analyze_satellite envCnnFail oracleDefault emptyRegistry none).1).scaler = none :=
  ⟨by decide, by decide, by decide, by decide, by decide⟩

/-- C8 (amended): a load failure is fatal for the first caller, and
although later callers are not handed the initialization error again —
the guard re-checks only the xgb slot, which a partial failure leaves
populated, so they run against the partially loaded registry — no later
request in any sequence of calls ever obtains a successful assessment:
any failure leaves the scaler slot empty and every scoring request dies
there. -/
theorem c8_fatal_until_remediated (env : LoadEnv) (o : Oracle)
    (req : Option (String × String)) (reqs : List (Option (String × String)))
    (henv : env.allOk = false) :
    (analyze_satellite env o emptyRegistry req).2 = AnalyzeResult.loadFailure ∧
    ∀ r ∈ (runCalls env o emptyRegistry reqs).2, ∀ a, r ≠ AnalyzeResult.ok a := by
  constructor
  · have h2 : (load_models_if_needed env emptyRegistry).2.2 = true :=
      load_raises_from_empty env henv
    unfold analyze_satellite
    simp [h2]
  · exact runCalls_no_ok env o henv reqs emptyRegistry rfl

/-- Witness for C8 (amended) under the CNN load failure with one
missing-field request and a two-request sequence. -/
theorem c8_fatal_until_remediated_witness :
    LoadEnv.allOk envCnnFail = false ∧
    ((analyze_satellite envCnnFail oracleDefault emptyRegistry none).2 =
        AnalyzeResult.loadFailure ∧
      ∀ r ∈ (runCalls envCnnFail oracleDefault emptyRegistry
          [none, some (tleLine1Short, tleLine2Short)]).2,
        ∀ a, r ≠ AnalyzeResult.ok a) :=
  ⟨by decide, c8_fatal_until_remediated envCnnFail oracleDefault none
    [none, some (tleLine1Short, tleLine2Short)] (by decide)⟩

/-! ## C9 -/

/-- C9 counterexample: serialized by the lock, a first caller in the
CNN-failure environment raises the initialization failure, but a second
caller neither waits for a completed initialization nor receives that
failure: it skips the branch and observes the partial registry (xgb
populated, cnn and scaler empty). -/
theorem c9_second_caller_sees_partial_state :
    load_models_if_needed envCnnFail emptyRegistry = (partialReg, true, true) ∧
    load_models_if_needed envCnnFail partialReg = (partialReg, false, false) ∧
    partialReg.xgb = some true ∧ partialReg.cnn = none ∧ partialReg.scaler = none :=
  ⟨by decide, by decide, rfl, rfl, rfl⟩

/-- C9 (amended): the lock serializes concurrent first access, so the
callers' critical sections run in some sequential order; in a fully
successful environment the load branch executes exactly once over any
number of callers, none raises, and the registry ends fully populated;
when the failure precedes the xgb assignment (constructor failure)
every caller re-attempts and every caller receives the failure; but
when the failure follows the xgb assignment only the first caller
receives it (see the counterexample). -/
theorem c9_load_executes_once (env env2 : LoadEnv) (n m : ℕ)
    (h : env.allOk = true) (h2 : env2.xgbCtorOk = false) (hn : 1 ≤ n) :
    loadRun env n emptyRegistry = (fullReg, 1, 0) ∧
    loadRun env2 m emptyRegistry = (emptyRegistry, m, m) := by
  constructor
  · obtain ⟨k, rfl⟩ : ∃ k, n = k + 1 := ⟨n - 1, by omega⟩
    simp [loadRun, load_full env h, loadRun_skip env k fullReg (by decide)]
  · induction m with
    | zero => rfl
    | succ j ih =>
      simp [loadRun, load_ctor_fail env2 h2, ih, Nat.add_comm]

/-- Witness for C9 (amended): three callers in the all-success
environment, two in the constructor-failure environment. -/
theorem c9_load_executes_once_witness :
    LoadEnv.allOk envAllOk = true ∧ envCtorFail.xgbCtorOk = false ∧ 1 ≤ 3 ∧
    (loadRun envAllOk 3 emptyRegistry = (fullReg, 1, 0) ∧
      loadRun envCtorFail 2 emptyRegistry = (emptyRegistry, 2, 2)) :=
  ⟨by decide, by decide, by decide,
    c9_load_executes_once envAllOk envCtorFail 3 2 (by decide) (by decide) (by decide)⟩

end OrbitWatch
